import Mathlib

/-!
Verification of the SAC training code against its design document.

Shallow embedding of the two source files:
- sac_policy.py (class SACPolicy): squashed-Gaussian action sampling and
  log-probability computation;
- sac_agent.py (class SACAgent): the training loop, the double-Q target,
  the critic and actor losses, and the explained-variance diagnostic.

Tensor arithmetic on floats is idealised as arithmetic on the reals
(explained_variance, which uses only field operations, is idealised over
the rationals so that it stays executable).  Batched tensors of shape
(B, D) become functions Fin B to Fin D to the reals.  Gradient-tape
behaviour is modelled with forward-mode tangent pairs (TDual): the value
of a scalar together with its derivative along an arbitrary direction of
the trainable parameters; tf.stop_gradient zeroes the tangent.
-/

namespace SAC

/-! ### Constants of sac_policy.py (module level, lines 8-12) -/

/-- EPS of sac_policy.py: prevents division by zero and log of zero. -/
noncomputable def EPS : ℝ := 1e-6

/-- LOG_STD_MAX of sac_policy.py: intended cap on the log standard deviation. -/
noncomputable def LOG_STD_MAX : ℝ := 2

/-- LOG_STD_MIN of sac_policy.py: intended floor on the log standard deviation. -/
noncomputable def LOG_STD_MIN : ℝ := -20

/-! ### SACPolicy, continuous-action path (sac_policy.py)

The actor model maps each observation to a per-dimension pair
(mean, log_std).  In the source, Normal(0, 1).sample() draws one scalar
standard-normal value that NumPy broadcasting spreads over the whole
batch; it is the parameter z below.
-/

/-- Line 70 of eval_cont (and line 99 of step_cont): std = tf.exp(log_std).
The clamp of log_std to [LOG_STD_MIN, LOG_STD_MAX] is commented out on
line 69 of eval_cont and absent from step_cont, so the raw model output
is exponentiated. -/
noncomputable def policy_std (log_std : ℝ) : ℝ := Real.exp log_std

/-- Line 72: pre_squish_action = mean + std * Normal(0, 1).sample(). -/
noncomputable def pre_squish (mean log_std z : ℝ) : ℝ :=
  mean + policy_std log_std * z

/-- Line 73: squish_action = tf.math.tanh(pre_squish_action). -/
noncomputable def squish_action (mean log_std z : ℝ) : ℝ :=
  Real.tanh (pre_squish mean log_std z)

/-- Line 74: action = squish_action * self.action_range. -/
noncomputable def action_of (action_range mean log_std z : ℝ) : ℝ :=
  squish_action mean log_std z * action_range

/-- One (batch, dimension) entry of the log_prob tensor of eval_cont
(lines 76-78), before the reduce_sum:
Normal(mean, std).log_prob(pre_squish) - log(1 - squish^2 + EPS)
- log(action_range).  The function nlp abstracts the Normal log-density
of tensorflow_probability (arguments: mean, std, point). -/
noncomputable def log_prob_entry (nlp : ℝ → ℝ → ℝ → ℝ)
    (action_range mean log_std z : ℝ) : ℝ :=
  nlp mean (policy_std log_std) (pre_squish mean log_std z)
    - Real.log (1 - squish_action mean log_std z ^ 2 + EPS)
    - Real.log action_range

/-- The log_prob returned by eval_cont (line 79):
tf.reduce_sum(log_prob, axis=1)[:, None], a batch-by-1 column tensor,
modelled as a function on Fin B and a one-element column index. -/
noncomputable def eval_cont_log_prob (B D : ℕ) (nlp : ℝ → ℝ → ℝ → ℝ)
    (action_range : ℝ) (mean log_std : Fin B → Fin D → ℝ) (z : ℝ) :
    Fin B → Fin 1 → ℝ :=
  fun b _ => ∑ d, log_prob_entry nlp action_range (mean b d) (log_std b d) z

/-- The log-probability formula as the design document states it
(section 4.2): the sum over action dimensions of
[density - log(1 - action_unit^2 + EPS)], with a single log(action_range)
subtracted outside the sum.  Written from the wording of the document for
comparison with eval_cont_log_prob. -/
noncomputable def spec_log_prob (B D : ℕ) (nlp : ℝ → ℝ → ℝ → ℝ)
    (action_range : ℝ) (mean log_std : Fin B → Fin D → ℝ) (z : ℝ) :
    Fin B → Fin 1 → ℝ :=
  fun b _ =>
    (∑ d, (nlp (mean b d) (policy_std (log_std b d))
              (pre_squish (mean b d) (log_std b d) z)
          - Real.log (1 - squish_action (mean b d) (log_std b d) z ^ 2 + EPS)))
      - Real.log action_range

/-- step_cont (lines 97-104) before the final indexing: the full batched
action tensor, one row per batch element.  With deterministic=True the
pre-squash value is the mean (line 102). -/
noncomputable def step_cont_batch (B D : ℕ) (O : Type)
    (model : O → (Fin D → ℝ) × (Fin D → ℝ))
    (action_range z : ℝ) (deterministic : Bool) (obs : Fin B → O) :
    Fin B → Fin D → ℝ :=
  fun b d =>
    let mean := (model (obs b)).1 d
    let log_std := (model (obs b)).2 d
    let p := if deterministic then mean else pre_squish mean log_std z
    Real.tanh p * action_range

/-- step_cont (line 106): returns action.numpy()[0], only row 0 of the
batched action tensor.  The batch has B+1 elements, so row 0 exists. -/
noncomputable def step_cont (B D : ℕ) (O : Type)
    (model : O → (Fin D → ℝ) × (Fin D → ℝ))
    (action_range z : ℝ) (deterministic : Bool) (obs : Fin (B + 1) → O) :
    Fin D → ℝ :=
  fun d => step_cont_batch (B + 1) D O model action_range z deterministic obs 0 d

/-! ### explained_variance (sac_agent.py lines 227-238)

np.var is the population variance: the mean of squared deviations from
the mean.  The NaN sentinel returned for a zero-variance y_true is
modelled as none.
-/

/-- np.mean of a one-dimensional array.  Division by zero in the rationals
yields zero, matching the convention used throughout this file for the
degenerate empty batch. -/
def npMean (xs : List ℚ) : ℚ := xs.sum / xs.length

/-- np.var of a one-dimensional array: mean of squared deviations. -/
def npVar (xs : List ℚ) : ℚ := npMean (xs.map (fun x => (x - npMean xs) ^ 2))

/-- SACAgent.explained_variance: returns NaN (modelled none) when
Var[y_true] is zero, else 1 - Var[y_true - y_pred] / Var[y_true]. -/
def explained_variance (y_pred y_true : List ℚ) : Option ℚ :=
  let var_y := npVar y_true
  if var_y = 0 then none
  else some (1 - npVar (List.zipWith (fun a b => a - b) y_true y_pred) / var_y)

/-! ### Gradient-tape model: forward-mode tangent pairs -/

/-- A scalar tensor together with its derivative along one arbitrary
direction of the trainable parameters (forward-mode automatic
differentiation). -/
structure TDual where
  val : ℝ
  tan : ℝ

/-- Addition of tangent pairs. -/
noncomputable def TDual.add (x y : TDual) : TDual :=
  ⟨x.val + y.val, x.tan + y.tan⟩

/-- Subtraction of tangent pairs. -/
noncomputable def TDual.sub (x y : TDual) : TDual :=
  ⟨x.val - y.val, x.tan - y.tan⟩

/-- Multiplication of tangent pairs (product rule). -/
noncomputable def TDual.mul (x y : TDual) : TDual :=
  ⟨x.val * y.val, x.val * y.tan + x.tan * y.val⟩

/-- A constant (batch data or hyperparameter): zero tangent. -/
noncomputable def TDual.const (c : ℝ) : TDual := ⟨c, 0⟩

/-- tf.minimum on tangent pairs: the derivative follows the branch that
attains the minimum. -/
noncomputable def TDual.minimum (x y : TDual) : TDual :=
  if x.val ≤ y.val then x else y

/-- tf.stop_gradient: the value passes through, the derivative is cut. -/
noncomputable def stop_gradient (x : TDual) : TDual := ⟨x.val, 0⟩

/-! ### SACAgent.train: target, losses, control flow (sac_agent.py) -/

/-- tf.reduce_mean over a batch of B scalars. -/
noncomputable def reduce_mean (B : ℕ) (f : Fin B → ℝ) : ℝ := (∑ j, f j) / B

/-- target_q of SACAgent.train (lines 145-152), per batch element:
tf.stop_gradient(b_rewards + (1 - b_dones) * gamma *
(tf.minimum(q1_ts, q2_ts) - alpha * n_log_probs)).
The arguments q1t and q2t are the target-critic outputs at
(b_n_obs, b_n_actions) and nlogp the log-probability of the fresh policy
sample at b_n_obs; they carry the tangents of the computations that
produced them, while rewards, dones, gamma and alpha are data. -/
noncomputable def target_q (gamma alpha reward done : ℝ)
    (q1t q2t nlogp : TDual) : TDual :=
  stop_gradient (TDual.add (TDual.const reward)
    (TDual.mul
      (TDual.mul (TDual.sub (TDual.const 1) (TDual.const done))
        (TDual.const gamma))
      (TDual.sub (TDual.minimum q1t q2t) (TDual.mul (TDual.const alpha) nlogp))))

/-- The three losses computed inside the gradient tape. -/
structure TapeLosses where
  q1_loss : ℝ
  q2_loss : ℝ
  policy_loss : ℝ

/-- The body of the gradient tape in SACAgent.train (lines 153-167),
translated line by line.  Q1 and Q2 are the critic networks as functions
of their own parameters; policy_eval is self.policy applied to a batch of
observations, as a function of the actor parameters, returning the pair
(new_actions, log_probs) of a fresh stochastic sample.  th1, th2, tha are
the current parameters of q1, q2 and the actor; target is the detached
target_q value.  Note line 164: min_n_qs = tf.min(q1s, q2s) is taken over
the critic outputs at the STORED minibatch actions (q1s, q2s, lines
155-156); the resampled-action outputs n_q1s, n_q2s (lines 162-163) are
computed but never used. -/
noncomputable def tape_losses (B : ℕ) (O A P : Type)
    (Q1 Q2 : P → O → A → ℝ)
    (policy_eval : P → (Fin B → O) → (Fin B → A) × (Fin B → ℝ))
    (alpha : ℝ) (th1 th2 tha : P)
    (b_obs : Fin B → O) (b_actions : Fin B → A) (target : Fin B → ℝ) :
    TapeLosses :=
  let q1s := fun j => Q1 th1 (b_obs j) (b_actions j)
  let q2s := fun j => Q2 th2 (b_obs j) (b_actions j)
  let q1_l := 0.5 * reduce_mean B (fun j => (q1s j - target j) ^ 2)
  let q2_l := 0.5 * reduce_mean B (fun j => (q2s j - target j) ^ 2)
  let sampled := policy_eval tha b_obs
  let new_actions := sampled.1
  let log_probs := sampled.2
  let n_q1s := fun j => Q1 th1 (b_obs j) (new_actions j)
  let n_q2s := fun j => Q2 th2 (b_obs j) (new_actions j)
  let min_n_qs := fun j => min (q1s j) (q2s j)
  let policy_l := reduce_mean B (fun j => alpha * log_probs j - min_n_qs j)
  ⟨q1_l, q2_l, policy_l⟩

/-- The actor loss as the design document states it (section 4.5): mean
over the batch of alpha * log_prob - min over the two LIVE critics
evaluated at (obs, resampled action).  Written from the wording of the
document for comparison with the policy_loss field of tape_losses. -/
noncomputable def spec_policy_loss (B : ℕ) (O A P : Type)
    (Q1 Q2 : P → O → A → ℝ)
    (policy_eval : P → (Fin B → O) → (Fin B → A) × (Fin B → ℝ))
    (alpha : ℝ) (th1 th2 tha : P) (b_obs : Fin B → O) : ℝ :=
  let sampled := policy_eval tha b_obs
  reduce_mean B (fun j => alpha * sampled.2 j
    - min (Q1 th1 (b_obs j) (sampled.1 j)) (Q2 th2 (b_obs j) (sampled.1 j)))

/-- The five networks held by SACAgent (init, lines 56-75): the actor, the
two live critics, and the two target critics. -/
structure AgentNets (P : Type) where
  actor : P
  q1 : P
  q2 : P
  q1_t : P
  q2_t : P

/-- SACAgent init, lines 74-75: the target critics are built once by
tf.keras.models.clone_model of the live critics; clone abstracts
clone_model (which rebuilds the architecture with fresh weights). -/
def init_nets (P : Type) (clone : P → P) (actor0 q10 q20 : P) : AgentNets P :=
  ⟨actor0, q10, q20, clone q10, clone q20⟩

/-- One gradient step of SACAgent.train (lines 153-181) at the level of
network weights: apply_gradients updates q1, q2 and the actor through
their optimizers; no other network is assigned — in particular neither
q1_t nor q2_t is ever written anywhere in train.  step_q1, step_q2 and
step_actor abstract optimizer.apply_gradients composed with the gradients
taken from the tape (each may read the whole current state). -/
def gradient_step (P : Type) (step_q1 step_q2 step_actor : AgentNets P → P)
    (s : AgentNets P) : AgentNets P :=
  { s with q1 := step_q1 s, q2 := step_q2 s, actor := step_actor s }

/-- Modelled from the spec: the ReplayBuffer class is not under src; the
design document (section 4.1) defines can_sample(batch_size) as
size >= batch_size. -/
def can_sample (size batch_size : ℕ) : Bool := decide (batch_size ≤ size)

/-- The learn phase of one iteration of SACAgent.train exactly as written
(lines 131-141): when i % train_freq == 0 the source executes the
statement on line 132, for g in self.gradient_steps, which iterates over
the integer gradient_steps itself and raises a TypeError before any gate
inside the loop body is checked.  Modelled with Except; the ok value
would be the number of minibatches sampled. -/
def learn_phase_code (train_freq i : ℕ) : Except String ℕ :=
  if i % train_freq = 0 then
    Except.error "TypeError: int object is not iterable"
  else
    Except.ok 0

/-- The body of the inner learn loop (lines 133-141) per remaining pass:
each pass first checks the gate, if not can_sample(batch_size) or
i < random_steps then break, and otherwise samples one minibatch and
performs the update.  Returns the number of minibatches sampled; can_s
and warmup are the two gate booleans, constant across passes because
neither the buffer size nor i changes inside the loop. -/
def learn_loop (can_s warmup : Bool) : ℕ → ℕ
  | 0 => 0
  | n + 1 => if !can_s || warmup then 0 else learn_loop can_s warmup n + 1

/-- Modelled from the spec: section 4.6 conditional learning — the learn
phase with the loop header of line 132 read as iterating
range(gradient_steps), its evident intent (as written it iterates an
integer and cannot execute); the outer periodicity check of line 131 and
the gates of lines 133-140 are translated from the source. -/
def learn_phase (train_freq random_steps gradient_steps batch_size
    buf_size i : ℕ) : ℕ :=
  if i % train_freq = 0 then
    learn_loop (can_sample buf_size batch_size) (decide (i < random_steps))
      gradient_steps
  else 0

/-- Action selection in SACAgent.train (lines 118-121): during warm-up
(i < random_steps) the actions come from self.random_policy(); otherwise
they are the first component of self.policy(self.obs). -/
def select_actions (Acts LP O : Type) (random_steps i : ℕ)
    (random_policy : Unit → Acts) (policy : O → Acts × LP) (obs : O) : Acts :=
  if i < random_steps then random_policy () else (policy obs).1

/-! ## Theorems -/

/-- Helper: the inner learn loop in closed form — it runs all n passes when
both gates pass on entry and zero passes otherwise. -/
theorem learn_loop_closed (can_s warmup : Bool) (n : ℕ) :
    learn_loop can_s warmup n
      = if can_s = true ∧ warmup = false then n else 0 := by
  induction n with
  | zero => cases can_s <;> cases warmup <;> simp [learn_loop]
  | succ n ih => cases can_s <;> cases warmup <;> simp_all [learn_loop]

/-- C4: for every sampled minibatch element, the critic regression target
equals reward + (1 - done) * gamma * (min(Q1_target, Q2_target) - alpha *
next_log_prob); it is detached (its tangent is zero whatever tangents flow
into the target branch); and with done = 1 and reward = 1 the target is
exactly 1 regardless of every Q-network output. -/
theorem target_q_formula_detached (gamma alpha reward done : ℝ)
    (q1t q2t nlogp : TDual) :
    (target_q gamma alpha reward done q1t q2t nlogp).val
        = reward + (1 - done) * gamma * (min q1t.val q2t.val - alpha * nlogp.val)
      ∧ (target_q gamma alpha reward done q1t q2t nlogp).tan = 0
      ∧ (target_q gamma alpha 1 1 q1t q2t nlogp).val = 1 := by
  refine ⟨?_, rfl, ?_⟩ <;>
    · simp only [target_q, stop_gradient, TDual.add, TDual.mul, TDual.sub,
        TDual.const, TDual.minimum, min_def]
      split <;> ring

/-- C6: each critic loss computed in the tape is one half of the mean
squared error between that critic at the stored (obs, action) pairs and
the detached target, and each loss, as a function of the three trainable
parameter slots, reads only the parameters of its own critic: the q1 loss
is unchanged under any change of the q2 and actor parameters (so its
gradient along those parameters vanishes), and symmetrically for q2. -/
theorem critic_losses_half_mse_independent (B : ℕ) (O A P : Type)
    (Q1 Q2 : P → O → A → ℝ)
    (policy_eval : P → (Fin B → O) → (Fin B → A) × (Fin B → ℝ))
    (alpha : ℝ) (th1 th2 tha th1' th2' tha' : P)
    (b_obs : Fin B → O) (b_actions : Fin B → A) (target : Fin B → ℝ) :
    (tape_losses B O A P Q1 Q2 policy_eval alpha th1 th2 tha b_obs b_actions
          target).q1_loss
        = 0.5 * reduce_mean B
            (fun j => (Q1 th1 (b_obs j) (b_actions j) - target j) ^ 2)
      ∧ (tape_losses B O A P Q1 Q2 policy_eval alpha th1 th2 tha b_obs
            b_actions target).q1_loss
        = (tape_losses B O A P Q1 Q2 policy_eval alpha th1 th2' tha' b_obs
            b_actions target).q1_loss
      ∧ (tape_losses B O A P Q1 Q2 policy_eval alpha th1 th2 tha b_obs
            b_actions target).q2_loss
        = 0.5 * reduce_mean B
            (fun j => (Q2 th2 (b_obs j) (b_actions j) - target j) ^ 2)
      ∧ (tape_losses B O A P Q1 Q2 policy_eval alpha th1 th2 tha b_obs
            b_actions target).q2_loss
        = (tape_losses B O A P Q1 Q2 policy_eval alpha th1' th2 tha' b_obs
            b_actions target).q2_loss :=
  ⟨rfl, rfl, rfl, rfl⟩

/-- C3 evaluation: after any number of gradient steps, the target-critic
weights still hold the exact values they received at initialisation —
train never synchronizes them from the live critics (and also never
applies gradients to them: they are simply never written). -/
theorem targets_never_resynced (P : Type)
    (step_q1 step_q2 step_actor : AgentNets P → P) (s : AgentNets P)
    (n : ℕ) :
    ((gradient_step P step_q1 step_q2 step_actor)^[n] s).q1_t = s.q1_t
      ∧ ((gradient_step P step_q1 step_q2 step_actor)^[n] s).q2_t = s.q2_t := by
  induction n with
  | zero => exact ⟨rfl, rfl⟩
  | succ n ih =>
      rw [Function.iterate_succ_apply']
      exact ⟨ih.1, ih.2⟩

/-- C7 evaluation: as written, every iteration with i % train_freq == 0
(here i = 0, train_freq = 1) raises a TypeError before any gate is
checked, because line 132 iterates over the integer gradient_steps; under
the evident intent range(gradient_steps), the learn phase samples the
buffer gradient_steps times exactly when all three gates hold —
i % train_freq == 0, batch_size <= buffer size, and i past the warm-up —
and zero times otherwise. -/
theorem learn_phase_gates (train_freq random_steps gradient_steps
    batch_size buf_size i : ℕ) :
    learn_phase_code 1 0 = Except.error "TypeError: int object is not iterable"
      ∧ learn_phase train_freq random_steps gradient_steps batch_size
          buf_size i
        = if i % train_freq = 0 ∧ batch_size ≤ buf_size ∧ random_steps ≤ i
          then gradient_steps else 0 := by
  refine ⟨rfl, ?_⟩
  unfold learn_phase
  rw [learn_loop_closed]
  by_cases h1 : i % train_freq = 0 <;>
    by_cases h2 : batch_size ≤ buf_size <;>
      by_cases h3 : random_steps ≤ i <;>
        simp_all [can_sample, Nat.not_le, Nat.not_lt]
  all_goals rw [if_neg (by omega)]

/-- C8: during the warm-up (i < random_steps) the selected actions are
exactly the random-policy output and the trained policy is not consulted
(the selection is the same for any two trained policies); from
i >= random_steps on, the actions are the trained-policy output. -/
theorem warmup_action_selection (Acts LP O : Type) (random_steps i : ℕ)
    (random_policy : Unit → Acts) (p p' : O → Acts × LP) (obs : O) :
    (i < random_steps →
        select_actions Acts LP O random_steps i random_policy p obs
            = random_policy ()
          ∧ select_actions Acts LP O random_steps i random_policy p obs
            = select_actions Acts LP O random_steps i random_policy p' obs)
      ∧ (random_steps ≤ i →
          select_actions Acts LP O random_steps i random_policy p obs
            = (p obs).1) := by
  constructor
  · intro h
    unfold select_actions
    rw [if_pos h, if_pos h]
    exact ⟨rfl, rfl⟩
  · intro h
    unfold select_actions
    rw [if_neg (Nat.not_lt.mpr h)]

/-- Witness for warmup_action_selection: with random_steps = 2 the
iteration i = 1 takes the random action 7 and the iteration i = 3 takes
the trained-policy action 5. -/
theorem warmup_action_selection_wit :
    select_actions ℕ ℕ ℕ 2 1 (fun _ => 7) (fun o => (o + 1, 0)) 4 = 7
      ∧ select_actions ℕ ℕ ℕ 2 3 (fun _ => 7) (fun o => (o + 1, 0)) 4 = 5 := by
  constructor
  · exact ((warmup_action_selection ℕ ℕ ℕ 2 1 (fun _ => 7)
      (fun o => (o + 1, 0)) (fun o => (o + 2, 0)) 4).1 (by decide)).1
  · exact (warmup_action_selection ℕ ℕ ℕ 2 3 (fun _ => 7)
      (fun o => (o + 1, 0)) (fun o => (o + 2, 0)) 4).2 (by decide)

/-- C2 evaluation: with the clamp of line 69 commented out, a model output
of log_std = 3 (above LOG_STD_MAX = 2) passes through unchanged: the
standard deviation used by eval_cont and step_cont is exp 3, strictly
above the bound exp LOG_STD_MAX asserted by the claim. -/
theorem log_std_clamp_missing :
    policy_std 3 = Real.exp 3 ∧ Real.exp LOG_STD_MAX < policy_std 3 := by
  refine ⟨rfl, ?_⟩
  unfold policy_std LOG_STD_MAX
  exact Real.exp_lt_exp.mpr (by norm_num)

/-- C1 evaluation: a concrete one-element minibatch on which the actor
loss computed by the tape (minimum of the critic outputs at the STORED
minibatch action, line 164) differs from the formula of the claim
(minimum at the freshly resampled action): with both critics
Q(obs, a) = a, stored action 0, resampled action 1, alpha = 0, the code
computes 0 while the claimed formula gives -1. -/
theorem actor_loss_uses_stored_actions :
    (tape_losses 1 ℝ ℝ ℝ (fun _ _ a => a) (fun _ _ a => a)
        (fun _ _ => (fun _ => 1, fun _ => 0)) 0 0 0 0
        (fun _ => 0) (fun _ => 0) (fun _ => 0)).policy_loss = 0
      ∧ spec_policy_loss 1 ℝ ℝ ℝ (fun _ _ a => a) (fun _ _ a => a)
        (fun _ _ => (fun _ => 1, fun _ => 0)) 0 0 0 0 (fun _ => 0) = -1 := by
  constructor <;> simp [tape_losses, spec_policy_loss, reduce_mean]

/-- C10: the continuous step operation returns only row 0 of the batched
action tensor — a single per-dimension action vector — in both the
deterministic and the stochastic mode: the result coincides with row 0 of
the full batch computation and is unchanged when every other batch
element changes. -/
theorem step_cont_first_row_only (B D : ℕ) (O : Type)
    (model : O → (Fin D → ℝ) × (Fin D → ℝ)) (action_range z : ℝ)
    (deterministic : Bool) (obs obs2 : Fin (B + 1) → O) :
    step_cont B D O model action_range z deterministic obs
        = step_cont_batch (B + 1) D O model action_range z deterministic obs 0
      ∧ (obs 0 = obs2 0 →
          step_cont B D O model action_range z deterministic obs
            = step_cont B D O model action_range z deterministic obs2) := by
  refine ⟨rfl, fun h => ?_⟩
  funext d
  unfold step_cont step_cont_batch
  rw [h]

/-- Witness for step_cont_first_row_only: two batches of two observations
agreeing on element 0 and differing on element 1 produce the same single
action vector. -/
theorem step_cont_first_row_only_wit :
    step_cont 1 1 ℝ (fun o => (fun _ => o, fun _ => o)) 1 0 false
        (fun i => if i = 0 then 0 else 5)
      = step_cont 1 1 ℝ (fun o => (fun _ => o, fun _ => o)) 1 0 false
        (fun i => if i = 0 then 0 else 7) :=
  (step_cont_first_row_only 1 1 ℝ (fun o => (fun _ => o, fun _ => o)) 1 0
    false (fun i => if i = 0 then 0 else 5)
    (fun i => if i = 0 then 0 else 7)).2 (by simp)

/-- Helper: the pre-squash sample at mean = 0, log_std = 0, z = 0 is 0. -/
theorem pre_squish_zero : pre_squish 0 0 0 = 0 := by
  simp [pre_squish, policy_std]

/-- C5 counterexample: with two action dimensions, density identically
zero, mean = log_std = 0, z = 0 and action_range = e, the log-probability
computed by eval_cont differs from the formula of the claim: the code
subtracts log(action_range) once per dimension (twice in total), the
claim subtracts it once outside the sum. -/
theorem log_prob_range_term_cex :
    eval_cont_log_prob 1 2 (fun _ _ _ => 0) (Real.exp 1)
        (fun _ _ => 0) (fun _ _ => 0) 0 0 0
      ≠ spec_log_prob 1 2 (fun _ _ _ => 0) (Real.exp 1)
        (fun _ _ => 0) (fun _ _ => 0) 0 0 0 := by
  intro h
  have h0 : squish_action 0 0 0 = 0 := by
    rw [squish_action, pre_squish_zero, Real.tanh_zero]
  rw [eval_cont_log_prob, spec_log_prob] at h
  simp only [Fin.sum_univ_two, log_prob_entry, pre_squish_zero, h0,
    Real.log_exp] at h
  linarith

/-- C5 amended: the log-probability returned by eval_cont is the sum over
the action dimensions of [density - log(1 - tanh(pre_squash)^2 + EPS)
- log(action_range)] — the log(action_range) correction applied once per
dimension, inside the sum — reduced to one scalar per sample and returned
as a batch-by-1 column whose value does not depend on the column index;
equivalently, it is the formula of the design document minus
(D - 1) * log(action_range). -/
theorem log_prob_formula (B D : ℕ) (nlp : ℝ → ℝ → ℝ → ℝ)
    (action_range : ℝ) (mean log_std : Fin B → Fin D → ℝ) (z : ℝ)
    (b : Fin B) (c c' : Fin 1) :
    eval_cont_log_prob B D nlp action_range mean log_std z b c
        = ∑ d, log_prob_entry nlp action_range (mean b d) (log_std b d) z
      ∧ eval_cont_log_prob B D nlp action_range mean log_std z b c
        = eval_cont_log_prob B D nlp action_range mean log_std z b c'
      ∧ eval_cont_log_prob B D nlp action_range mean log_std z b c
        = spec_log_prob B D nlp action_range mean log_std z b c
          - ((D : ℝ) - 1) * Real.log action_range := by
  refine ⟨rfl, rfl, ?_⟩
  rw [eval_cont_log_prob, spec_log_prob]
  simp only [log_prob_entry]
  rw [Finset.sum_sub_distrib, Finset.sum_const, Finset.card_univ,
    Fintype.card_fin, nsmul_eq_mul]
  ring

/-- Helper: elementwise difference of a list with itself is all zeros. -/
theorem zipWith_sub_self (y : List ℚ) :
    List.zipWith (fun a b => a - b) y y = List.replicate y.length 0 := by
  induction y with
  | nil => rfl
  | cons x xs ih => simp [ih, List.replicate]

/-- Helper: the variance of an all-zero array is zero. -/
theorem npVar_replicate_zero (n : ℕ) : npVar (List.replicate n 0) = 0 := by
  unfold npVar npMean
  simp [List.map_replicate, List.sum_replicate]

/-- Helper: elementwise difference with a constant array is a mapped
subtraction. -/
theorem zipWith_sub_replicate (y : List ℚ) (m : ℚ) :
    List.zipWith (fun a b => a - b) y (List.replicate y.length m)
      = y.map (fun a => a - m) := by
  induction y with
  | nil => rfl
  | cons x xs ih => simp [ih, List.replicate]

/-- Helper: the sum after subtracting a constant from every entry. -/
theorem sum_map_sub_const (y : List ℚ) (m : ℚ) :
    (y.map (fun a => a - m)).sum = y.sum - y.length * m := by
  induction y with
  | nil => simp
  | cons x xs ih =>
      simp only [List.map_cons, List.sum_cons, ih, List.length_cons]
      push_cast
      ring

/-- Helper: the population variance is invariant under subtracting a
constant from every entry of a nonempty array. -/
theorem npVar_map_sub (y : List ℚ) (m : ℚ) (hy : y ≠ []) :
    npVar (y.map (fun a => a - m)) = npVar y := by
  have hlen : (y.length : ℚ) ≠ 0 :=
    Nat.cast_ne_zero.mpr (fun h => hy (List.length_eq_zero.mp h))
  have hmean : npMean (y.map (fun a => a - m)) = npMean y - m := by
    unfold npMean
    rw [sum_map_sub_const, List.length_map]
    field_simp
  unfold npVar
  rw [hmean, List.map_map]
  have hfun : ((fun x => (x - (npMean y - m)) ^ 2) ∘ (fun a => a - m))
      = fun a => (a - npMean y) ^ 2 := by
    funext a
    simp only [Function.comp]
    ring
  rw [hfun]

/-- C9: explained_variance returns the undefined sentinel (none, modelling
NaN) whenever the variance of y_true is zero, instead of dividing;
returns exactly 1 when y_pred = y_true and the variance is nonzero; and
returns 0 when y_pred is everywhere the mean of y_true and the variance
is nonzero. -/
theorem explained_variance_cases (y_pred y_true : List ℚ) :
    (npVar y_true = 0 → explained_variance y_pred y_true = none)
      ∧ (y_pred = y_true → npVar y_true ≠ 0 →
          explained_variance y_pred y_true = some 1)
      ∧ (npVar y_true ≠ 0 →
          explained_variance (List.replicate y_true.length (npMean y_true))
            y_true = some 0) := by
  refine ⟨fun h => ?_, fun hp h => ?_, fun h => ?_⟩
  · unfold explained_variance
    simp [h]
  · subst hp
    unfold explained_variance
    rw [zipWith_sub_self, npVar_replicate_zero]
    simp [h]
  · have hy : y_true ≠ [] := by
      intro he
      apply h
      rw [he]
      simp [npVar, npMean]
    unfold explained_variance
    rw [zipWith_sub_replicate, npVar_map_sub y_true (npMean y_true) hy]
    simp [h, div_self h]

/-- Witness for explained_variance_cases at concrete arrays: constant
y_true gives the sentinel, y_pred = y_true gives 1, y_pred equal to the
mean gives 0. -/
theorem explained_variance_cases_wit :
    explained_variance [0, 0] [1, 1] = none
      ∧ explained_variance [0, 2] [0, 2] = some 1
      ∧ explained_variance [1, 1] [0, 2] = some 0 := by
  refine ⟨?_, ?_, ?_⟩
  · exact (explained_variance_cases [0, 0] [1, 1]).1
      (by norm_num [npVar, npMean])
  · exact (explained_variance_cases [0, 2] [0, 2]).2.1 rfl
      (by norm_num [npVar, npMean])
  · have h1 : npMean [(0 : ℚ), 2] = 1 := by norm_num [npMean]
    have hm : List.replicate (List.length [(0 : ℚ), 2]) (npMean [0, 2])
        = [1, 1] := by rw [h1]; rfl
    have := (explained_variance_cases [1, 1] [0, 2]).2.2
      (by norm_num [npVar, npMean])
    rw [hm] at this
    exact this

end SAC
